import Mathlib

/-!
Verification development for the ag2 repository's thin adapter modules:
the Redis-backed key/value cache, the default input/output stream stack,
the OpenAI realtime event client, the Couchbase vector-database backend,
and the pydantic realtime event models.

Where the repository ships only tests for a module, the module itself is
modelled from the specification (doc comments marked `Modelled from the
spec:`); the pydantic event models in
`autogen/agentchat/realtime_agent/realtime_events.py` are embedded from
their source.
-/

namespace Ag2

/-- A shallow embedding of Python/JSON values as they appear in the raw
realtime messages and keyword arguments handled by the adapters. -/
inductive JValue where
  | null : JValue
  | bool (b : Bool) : JValue
  | num (n : Int) : JValue
  | str (s : String) : JValue
  | arr (xs : List JValue) : JValue
  | obj (fields : List (String × JValue)) : JValue
deriving Repr

/-- Modelled from the spec: the repository pickles cached values
("light data shaping (... key prefixing, pickling)").  The universe of
picklable values used by the cache claims. -/
inductive PValue where
  | pnone : PValue
  | pbool (b : Bool) : PValue
  | pint (n : Int) : PValue
  | pstr (s : String) : PValue
deriving Repr, DecidableEq

/-- Modelled from the spec: `pickle.dumps`, serialising a picklable value
to a byte sequence (the Python `pickle` module is external to the repo). -/
def pickle_dumps : PValue → List Nat
  | .pnone => [0]
  | .pbool b => [1, if b then 1 else 0]
  | .pint n => if 0 ≤ n then [2, n.toNat] else [3, (-n).toNat]
  | .pstr s => 4 :: s.data.map Char.toNat

/-- Modelled from the spec: `pickle.loads`, deserialising a byte sequence
back to a value; `none` models an unpickling error. -/
def pickle_loads : List Nat → Option PValue
  | [0] => some .pnone
  | [1, 1] => some (.pbool true)
  | [1, 0] => some (.pbool false)
  | [2, m] => some (.pint (m : Int))
  | [3, m] => some (.pint (-(m : Int)))
  | 4 :: rest => some (.pstr ⟨rest.map Char.ofNat⟩)
  | _ => none

/-- A record of the calls the cache makes on the underlying Redis client. -/
inductive RedisCall where
  | get (key : String) : RedisCall
  | set (key : String) (value : List Nat) : RedisCall
  | close : RedisCall
deriving Repr, DecidableEq

/-- Modelled from the spec: the external Redis client object obtained from
`redis.Redis.from_url`, with its key/value store and the log of calls the
cache performs on it. -/
structure RedisClient where
  store : List (String × List Nat)
  calls : List RedisCall
deriving Repr, DecidableEq

/-- Modelled from the spec: the Redis client's `get`, returning the bytes
stored under a key (or `none`) and recording the call. -/
def RedisClient.get (cl : RedisClient) (key : String) : Option (List Nat) × RedisClient :=
  (cl.store.lookup key, { cl with calls := cl.calls ++ [RedisCall.get key] })

/-- Modelled from the spec: the Redis client's `set`, overwriting the bytes
stored under a key and recording the call. -/
def RedisClient.set (cl : RedisClient) (key : String) (value : List Nat) : RedisClient :=
  { cl with
      store := (key, value) :: cl.store
      calls := cl.calls ++ [RedisCall.set key value] }

/-- Modelled from the spec: the Redis client's `close`, recording the call. -/
def RedisClient.close (cl : RedisClient) : RedisClient :=
  { cl with calls := cl.calls ++ [RedisCall.close] }

/-- Modelled from the spec: `autogen/cache/redis_cache.py` is absent from
the sources (only its tests ship); "a Redis-backed key/value cache"
holding a seed and the underlying Redis client. -/
structure RedisCache where
  seed : String
  cache : RedisClient
deriving Repr, DecidableEq

/-- Modelled from the spec: `RedisCache.__init__(seed, redis_url)` creates
the client via `redis.Redis.from_url(redis_url)`, which starts with the
given store and an empty call log. -/
def RedisCache.init (seed : String) (store : List (String × List Nat)) : RedisCache :=
  { seed := seed, cache := { store := store, calls := [] } }

/-- Modelled from the spec: key prefixing — `_prefixed_key` namespaces a
key with the literal prefix and the cache's seed. -/
def RedisCache.prefixed_key (c : RedisCache) (key : String) : String :=
  "autogen:" ++ c.seed ++ ":" ++ key

/-- Modelled from the spec: `RedisCache.get(key)` asks the client for the
prefixed key; a missing entry yields `none` (Python `None`), and stored
bytes are unpickled (an unpickling failure is an exception, modelled as
`Except.error`). -/
def RedisCache.get (c : RedisCache) (key : String) :
    Except String (Option PValue) × RedisCache :=
  let r := c.cache.get (c.prefixed_key key)
  let c' : RedisCache := { c with cache := r.2 }
  match r.1 with
  | none => (Except.ok none, c')
  | some bs =>
    match pickle_loads bs with
    | none => (Except.error "UnpicklingError", c')
    | some v => (Except.ok (some v), c')

/-- Modelled from the spec: `RedisCache.set(key, value)` stores
`pickle.dumps(value)` under the prefixed key on the client. -/
def RedisCache.set (c : RedisCache) (key : String) (value : PValue) : RedisCache :=
  { c with cache := c.cache.set (c.prefixed_key key) (pickle_dumps value) }

/-- Modelled from the spec: `RedisCache.__enter__` returns the cache
itself. -/
def RedisCache.enter (c : RedisCache) : RedisCache := c

/-- Modelled from the spec: `RedisCache.__exit__` closes the underlying
Redis client connection. -/
def RedisCache.exitCM (c : RedisCache) : RedisCache :=
  { c with cache := c.cache.close }

/-- Modelled from the spec: running a body under `with RedisCache(...)`:
enter, run the body on the yielded cache, then exit. -/
def RedisCache.withCM {α : Type} (c : RedisCache) (body : RedisCache → α × RedisCache) :
    α × RedisCache :=
  let r := body (RedisCache.enter c)
  (r.1, RedisCache.exitCM r.2)

/-- Modelled from the spec: the kinds of input/output stream values the
`autogen.io` module (absent from the sources, only its tests ship) deals
in — the console stream `IOConsole` and any custom `IOStream` subclass
instance, identified here by a tag. -/
inductive IOStreamKind where
  | console : IOStreamKind
  | custom (id : Nat) : IOStreamKind
deriving Repr, DecidableEq

/-- Modelled from the spec: the state behind `IOStream.set_default`, a
stack of streams pushed by nested `with IOStream.set_default(...)`
contexts ("an abstract input/output stream for agent console
interaction"). -/
structure IODefaultState where
  stack : List IOStreamKind
deriving Repr, DecidableEq

/-- Modelled from the spec: the state before any `set_default` call. -/
def IODefaultState.initial : IODefaultState := ⟨[]⟩

namespace IOStream

/-- Modelled from the spec: `IOStream.get_default()` returns the most
recently set default stream, falling back to the console when none has
been set. -/
def get_default (s : IODefaultState) : IOStreamKind :=
  match s.stack with
  | [] => IOStreamKind.console
  | x :: _ => x

/-- Modelled from the spec: entering `with IOStream.set_default(x)` pushes
the stream on the stack of defaults. -/
def set_default_enter (s : IODefaultState) (x : IOStreamKind) : IODefaultState :=
  ⟨x :: s.stack⟩

/-- Modelled from the spec: leaving `with IOStream.set_default(...)` pops
the stream pushed on entry, restoring the previous default. -/
def set_default_exit (s : IODefaultState) : IODefaultState :=
  ⟨s.stack.tail⟩

end IOStream

/-- Modelled from the spec: "the realtime event client, is a single async
generator wrapping a vendor SDK's event stream" — the client module
`autogen/agentchat/realtime_agent/clients` is absent from the sources.
The connection, when present, carries the stream of raw messages the
vendor SDK would deliver. -/
structure OpenAIRealtimeClient where
  connection : Option (List (List (String × JValue)))

/-- Modelled from the spec: a freshly constructed client, before any call
to `connect()`: its connection is unset. -/
def OpenAIRealtimeClient.init : OpenAIRealtimeClient := ⟨none⟩

/-- Modelled from the spec: `connect()` establishes the vendor SDK
connection delivering the given stream of raw messages. -/
def OpenAIRealtimeClient.connect (_ : OpenAIRealtimeClient)
    (msgs : List (List (String × JValue))) : OpenAIRealtimeClient :=
  ⟨some msgs⟩

/-- Modelled from the spec: `read_events()` raises `RuntimeError` when the
client is not connected, before yielding any event; when connected it
yields the connection's event stream. -/
def OpenAIRealtimeClient.read_events (c : OpenAIRealtimeClient) :
    Except String (List (List (String × JValue))) :=
  match c.connection with
  | none => Except.error "Client is not connected, call connect() first."
  | some msgs => Except.ok msgs

/-- Modelled from the spec: "pluggable vector-database backends (e.g. a
Couchbase-backed store)" — `autogen/agentchat/contrib/vectordb/couchbase.py`
is absent from the sources (only its tests ship).  The state is the set of
collection names existing in the scope. -/
structure CouchbaseVectorDB where
  collections : List String
deriving Repr, DecidableEq

/-- Modelled from the spec: `CouchbaseVectorDB.create_collection(name,
overwrite, get_or_create)`.  With `overwrite` the existing collection is
deleted and recreated; otherwise, when the collection already exists,
`get_or_create` returns it and without `get_or_create` a `ValueError` is
raised.  The result carries the returned collection's name and the new
state. -/
def CouchbaseVectorDB.create_collection (db : CouchbaseVectorDB) (name : String)
    (overwrite get_or_create : Bool) : Except String (String × CouchbaseVectorDB) :=
  if overwrite then
    Except.ok (name, ⟨name :: db.collections.erase name⟩)
  else if db.collections.contains name then
    if get_or_create then
      Except.ok (name, db)
    else
      Except.error ("Collection " ++ name ++ " already exists.")
  else
    Except.ok (name, ⟨name :: db.collections⟩)

/-- Embedded from `realtime_events.py`: the pydantic base model; every
realtime event carries the raw message dict it was built from. -/
structure RealtimeEvent where
  raw_message : List (String × JValue)

/-- Embedded from `realtime_events.py`: `SessionCreated`, whose `type`
field is the pydantic `Literal` constrained to its tag, with that tag as
default. -/
structure SessionCreated extends RealtimeEvent where
  type : { s : String // s = "session.created" } := ⟨"session.created", rfl⟩

/-- Embedded from `realtime_events.py`: `SessionUpdated`. -/
structure SessionUpdated extends RealtimeEvent where
  type : { s : String // s = "session.updated" } := ⟨"session.updated", rfl⟩

/-- Embedded from `realtime_events.py`: `AudioDelta`, with a required
string `delta` and an `item_id` of type `Any`. -/
structure AudioDelta extends RealtimeEvent where
  type : { s : String // s = "response.audio.delta" } := ⟨"response.audio.delta", rfl⟩
  delta : String
  item_id : JValue

/-- Embedded from `realtime_events.py`: `SpeechStarted`. -/
structure SpeechStarted extends RealtimeEvent where
  type : { s : String // s = "input_audio_buffer.speech_started" } :=
    ⟨"input_audio_buffer.speech_started", rfl⟩

/-- Embedded from `realtime_events.py`: `FunctionCall`, with required
string `name`, dict `arguments` and string `call_id`. -/
structure FunctionCall extends RealtimeEvent where
  type : { s : String // s = "response.function_call_arguments.done" } :=
    ⟨"response.function_call_arguments.done", rfl⟩
  name : String
  arguments : List (String × JValue)
  call_id : String

/-- Pydantic keyword-argument lookup: the value passed for a field name,
if any. -/
def lookupKw (kw : List (String × JValue)) (k : String) : Option JValue :=
  List.lookup k kw

/-- Pydantic validation of a required `dict[str, Any]` field. -/
def requireDict (kw : List (String × JValue)) (k : String) :
    Except String (List (String × JValue)) :=
  match lookupKw kw k with
  | some (JValue.obj fields) => Except.ok fields
  | some _ => Except.error (k ++ ": input should be a valid dictionary")
  | none => Except.error (k ++ ": field required")

/-- Pydantic validation of a required `str` field (pydantic does not
coerce non-strings to `str`). -/
def requireStr (kw : List (String × JValue)) (k : String) : Except String String :=
  match lookupKw kw k with
  | some (JValue.str s) => Except.ok s
  | some _ => Except.error (k ++ ": input should be a valid string")
  | none => Except.error (k ++ ": field required")

/-- Pydantic validation of a required field of type `Any`: any value is
accepted, but the field must be supplied. -/
def requireAny (kw : List (String × JValue)) (k : String) : Except String JValue :=
  match lookupKw kw k with
  | some v => Except.ok v
  | none => Except.error (k ++ ": field required")

/-- Pydantic validation of a `Literal[lit]`-typed `type` field with
default `lit`: when supplied it must equal the declared literal. -/
def checkTypeLiteral (kw : List (String × JValue)) (lit : String) : Except String Unit :=
  match lookupKw kw ("type") with
  | none => Except.ok ()
  | some (JValue.str s) =>
    if s = lit then Except.ok () else Except.error ("type: unexpected literal value")
  | some _ => Except.error ("type: unexpected literal value")

/-- Pydantic construction/validation of `SessionCreated` from keyword
arguments. -/
def SessionCreated.model_validate (kw : List (String × JValue)) :
    Except String SessionCreated :=
  match requireDict kw ("raw_message") with
  | Except.error m => Except.error m
  | Except.ok raw =>
    match checkTypeLiteral kw ("session.created") with
    | Except.error m => Except.error m
    | Except.ok _ => Except.ok { raw_message := raw }

/-- Pydantic construction/validation of `SessionUpdated` from keyword
arguments. -/
def SessionUpdated.model_validate (kw : List (String × JValue)) :
    Except String SessionUpdated :=
  match requireDict kw ("raw_message") with
  | Except.error m => Except.error m
  | Except.ok raw =>
    match checkTypeLiteral kw ("session.updated") with
    | Except.error m => Except.error m
    | Except.ok _ => Except.ok { raw_message := raw }

/-- Pydantic construction/validation of `AudioDelta` from keyword
arguments. -/
def AudioDelta.model_validate (kw : List (String × JValue)) :
    Except String AudioDelta :=
  match requireDict kw ("raw_message") with
  | Except.error m => Except.error m
  | Except.ok raw =>
    match checkTypeLiteral kw ("response.audio.delta") with
    | Except.error m => Except.error m
    | Except.ok _ =>
      match requireStr kw ("delta") with
      | Except.error m => Except.error m
      | Except.ok d =>
        match requireAny kw ("item_id") with
        | Except.error m => Except.error m
        | Except.ok item => Except.ok { raw_message := raw, delta := d, item_id := item }

/-- Pydantic construction/validation of `SpeechStarted` from keyword
arguments. -/
def SpeechStarted.model_validate (kw : List (String × JValue)) :
    Except String SpeechStarted :=
  match requireDict kw ("raw_message") with
  | Except.error m => Except.error m
  | Except.ok raw =>
    match checkTypeLiteral kw ("input_audio_buffer.speech_started") with
    | Except.error m => Except.error m
    | Except.ok _ => Except.ok { raw_message := raw }

/-- Pydantic construction/validation of `FunctionCall` from keyword
arguments. -/
def FunctionCall.model_validate (kw : List (String × JValue)) :
    Except String FunctionCall :=
  match requireDict kw ("raw_message") with
  | Except.error m => Except.error m
  | Except.ok raw =>
    match checkTypeLiteral kw ("response.function_call_arguments.done") with
    | Except.error m => Except.error m
    | Except.ok _ =>
      match requireStr kw ("name") with
      | Except.error m => Except.error m
      | Except.ok n =>
        match requireDict kw ("arguments") with
        | Except.error m => Except.error m
        | Except.ok args =>
          match requireStr kw ("call_id") with
          | Except.error m => Except.error m
          | Except.ok cid =>
            Except.ok { raw_message := raw, name := n, arguments := args, call_id := cid }

/-- Helper theorem: `Char.ofNat` inverts `Char.toNat`; every character
survives the trip through its codepoint. -/
theorem char_ofNat_toNat (c : Char) : Char.ofNat c.toNat = c := by
  have h : c.toNat.isValidChar := c.valid
  unfold Char.ofNat
  rw [dif_pos h]
  unfold Char.ofNatAux
  apply Char.ext
  apply UInt32.ext
  simp [Char.toNat, UInt32.toNat]

/-- Helper theorem: the modelled `pickle.loads` inverts `pickle.dumps` on
every picklable value. -/
theorem pickle_loads_dumps (v : PValue) : pickle_loads (pickle_dumps v) = some v := by
  cases v with
  | pnone => rfl
  | pbool b => cases b <;> rfl
  | pint n =>
    by_cases h : 0 ≤ n
    · simp only [pickle_dumps, if_pos h, pickle_loads]
      congr 2
      omega
    · simp only [pickle_dumps, if_neg h, pickle_loads]
      congr 2
      omega
  | pstr s =>
    simp only [pickle_dumps, pickle_loads, List.map_map, Option.some.injEq,
      PValue.pstr.injEq]
    cases s with
    | mk data =>
      congr 1
      induction data with
      | nil => rfl
      | cons c cs ih => simp [Function.comp, char_ofNat_toNat, ih]

/-- Helper theorem: a successful `requireDict` means the keyword arguments
held exactly that dict under the field name. -/
theorem requireDict_ok_lookup {kw : List (String × JValue)} {k : String}
    {fields : List (String × JValue)} (h : requireDict kw k = Except.ok fields) :
    lookupKw kw k = some (JValue.obj fields) := by
  unfold requireDict at h
  cases hl : lookupKw kw k with
  | none => rw [hl] at h; cases h
  | some v => cases v <;> rw [hl] at h <;> simp_all

/-- Helper theorem: a validated `SessionCreated` took its `raw_message`
from the keyword arguments. -/
theorem sessionCreated_validate_raw {kw : List (String × JValue)} {e : SessionCreated}
    (h : SessionCreated.model_validate kw = Except.ok e) :
    requireDict kw ("raw_message") = Except.ok e.raw_message := by
  unfold SessionCreated.model_validate at h
  cases hd : requireDict kw ("raw_message") with
  | error m => rw [hd] at h; cases h
  | ok raw =>
    rw [hd] at h
    cases hc : checkTypeLiteral kw ("session.created") with
    | error m => rw [hc] at h; cases h
    | ok u => rw [hc] at h; injection h with he; rw [← he]

/-- Helper theorem: a validated `SessionUpdated` took its `raw_message`
from the keyword arguments. -/
theorem sessionUpdated_validate_raw {kw : List (String × JValue)} {e : SessionUpdated}
    (h : SessionUpdated.model_validate kw = Except.ok e) :
    requireDict kw ("raw_message") = Except.ok e.raw_message := by
  unfold SessionUpdated.model_validate at h
  cases hd : requireDict kw ("raw_message") with
  | error m => rw [hd] at h; cases h
  | ok raw =>
    rw [hd] at h
    cases hc : checkTypeLiteral kw ("session.updated") with
    | error m => rw [hc] at h; cases h
    | ok u => rw [hc] at h; injection h with he; rw [← he]

/-- Helper theorem: a validated `AudioDelta` took its `raw_message` from
the keyword arguments. -/
theorem audioDelta_validate_raw {kw : List (String × JValue)} {e : AudioDelta}
    (h : AudioDelta.model_validate kw = Except.ok e) :
    requireDict kw ("raw_message") = Except.ok e.raw_message := by
  unfold AudioDelta.model_validate at h
  cases hd : requireDict kw ("raw_message") with
  | error m => rw [hd] at h; cases h
  | ok raw =>
    rw [hd] at h
    cases hc : checkTypeLiteral kw ("response.audio.delta") with
    | error m => rw [hc] at h; cases h
    | ok u =>
      rw [hc] at h
      cases hs : requireStr kw ("delta") with
      | error m => rw [hs] at h; cases h
      | ok d =>
        rw [hs] at h
        cases ha : requireAny kw ("item_id") with
        | error m => rw [ha] at h; cases h
        | ok item => rw [ha] at h; injection h with he; rw [← he]

/-- Helper theorem: a validated `SpeechStarted` took its `raw_message`
from the keyword arguments. -/
theorem speechStarted_validate_raw {kw : List (String × JValue)} {e : SpeechStarted}
    (h : SpeechStarted.model_validate kw = Except.ok e) :
    requireDict kw ("raw_message") = Except.ok e.raw_message := by
  unfold SpeechStarted.model_validate at h
  cases hd : requireDict kw ("raw_message") with
  | error m => rw [hd] at h; cases h
  | ok raw =>
    rw [hd] at h
    cases hc : checkTypeLiteral kw ("input_audio_buffer.speech_started") with
    | error m => rw [hc] at h; cases h
    | ok u => rw [hc] at h; injection h with he; rw [← he]

/-- Helper theorem: a validated `FunctionCall` took its `raw_message` from
the keyword arguments. -/
theorem functionCall_validate_raw {kw : List (String × JValue)} {e : FunctionCall}
    (h : FunctionCall.model_validate kw = Except.ok e) :
    requireDict kw ("raw_message") = Except.ok e.raw_message := by
  unfold FunctionCall.model_validate at h
  cases hd : requireDict kw ("raw_message") with
  | error m => rw [hd] at h; cases h
  | ok raw =>
    rw [hd] at h
    cases hc : checkTypeLiteral kw ("response.function_call_arguments.done") with
    | error m => rw [hc] at h; cases h
    | ok u =>
      rw [hc] at h
      cases hn : requireStr kw ("name") with
      | error m => rw [hn] at h; cases h
      | ok n =>
        rw [hn] at h
        cases ha : requireDict kw ("arguments") with
        | error m => rw [ha] at h; cases h
        | ok args =>
          rw [ha] at h
          cases hi : requireStr kw ("call_id") with
          | error m => rw [hi] at h; cases h
          | ok cid => rw [hi] at h; injection h with he; rw [← he]

/-- C1: for every seed, key and picklable value, `set(key, value)` followed
by `get(key)` on a cache with the same seed returns the original value:
`set` stores `pickle.dumps(value)` under the prefixed key, and `get`
applies `pickle.loads` to what the store returns. -/
theorem redis_set_get_roundtrip (c : RedisCache) (key : String) (v : PValue) :
    ((RedisCache.set c key v).get key).1 = Except.ok (some v) := by
  simp [RedisCache.get, RedisCache.set, RedisClient.get, RedisClient.set,
    RedisCache.prefixed_key, pickle_loads_dumps]

/-- C2: `_prefixed_key(key)` is the string `"autogen:" + seed + ":" + key`,
and both `get` and `set` address the underlying Redis client with exactly
this prefixed key (as their recorded client calls show). -/
theorem redis_prefixed_key_spec (c : RedisCache) (key : String) (v : PValue) :
    RedisCache.prefixed_key c key = "autogen:" ++ c.seed ++ ":" ++ key ∧
    (RedisCache.get c key).2.cache.calls
      = c.cache.calls ++ [RedisCall.get (RedisCache.prefixed_key c key)] ∧
    (RedisCache.set c key v).cache.calls
      = c.cache.calls ++ [RedisCall.set (RedisCache.prefixed_key c key) (pickle_dumps v)] := by
  refine ⟨rfl, ?_, rfl⟩
  simp only [RedisCache.get, RedisClient.get]
  cases c.cache.store.lookup (c.prefixed_key key) with
  | none => rfl
  | some bs => cases h : pickle_loads bs <;> simp [h]

/-- C3: iterating `read_events()` on a client on which `connect()` has not
been called raises `RuntimeError("Client is not connected, call connect()
first.")` before yielding any event. -/
theorem read_events_not_connected :
    OpenAIRealtimeClient.read_events OpenAIRealtimeClient.init
      = Except.error ("Client is not connected, call connect() first.") := rfl

/-- C4: `create_collection(name, overwrite := false, get_or_create :=
false)` raises `ValueError` when the collection already exists; with
`overwrite := true` or `get_or_create := true` it instead returns a
collection whose name equals the requested name. -/
theorem create_collection_exists_spec (db : CouchbaseVectorDB) (name : String)
    (h : db.collections.contains name = true) :
    CouchbaseVectorDB.create_collection db name false false
      = Except.error ("Collection " ++ name ++ " already exists.") ∧
    (∀ ow gc : Bool, ow = true ∨ gc = true →
      ∃ db2 : CouchbaseVectorDB,
        CouchbaseVectorDB.create_collection db name ow gc = Except.ok (name, db2)) := by
  have hm : name ∈ db.collections := by simpa using h
  constructor
  · simp [CouchbaseVectorDB.create_collection, hm]
  · intro ow gc hor
    cases ow with
    | true =>
      exact ⟨⟨name :: db.collections.erase name⟩,
        by simp [CouchbaseVectorDB.create_collection]⟩
    | false =>
      cases gc with
      | true => exact ⟨db, by simp [CouchbaseVectorDB.create_collection, hm]⟩
      | false => cases hor with
        | inl h1 => cases h1
        | inr h2 => cases h2

/-- Witness for C4: on a store already containing collection `"c"`,
creating `"c"` with both flags false is a `ValueError` and each flag
combination with a true flag returns the requested name. -/
theorem create_collection_exists_spec_witness :
    CouchbaseVectorDB.create_collection ⟨["c"]⟩ ("c") false false
      = Except.error ("Collection c already exists.") ∧
    (∃ db2 : CouchbaseVectorDB,
      CouchbaseVectorDB.create_collection ⟨["c"]⟩ ("c") true false = Except.ok ("c", db2)) ∧
    (∃ db2 : CouchbaseVectorDB,
      CouchbaseVectorDB.create_collection ⟨["c"]⟩ ("c") false true = Except.ok ("c", db2)) := by
  have h := create_collection_exists_spec ⟨["c"]⟩ ("c") (by decide)
  exact ⟨h.1, h.2 true false (Or.inl rfl), h.2 false true (Or.inr rfl)⟩

/-- C5: every realtime event model carries its fixed `Literal` type
discriminator — `SessionCreated` events have type `"session.created"`,
`SessionUpdated` `"session.updated"`, `AudioDelta`
`"response.audio.delta"`, `SpeechStarted`
`"input_audio_buffer.speech_started"`, `FunctionCall`
`"response.function_call_arguments.done"` — and every validated event
retains the raw message dict it was constructed from. -/
theorem realtime_event_type_literals :
    (∀ e : SessionCreated, e.type.1 = "session.created") ∧
    (∀ e : SessionUpdated, e.type.1 = "session.updated") ∧
    (∀ e : AudioDelta, e.type.1 = "response.audio.delta") ∧
    (∀ e : SpeechStarted, e.type.1 = "input_audio_buffer.speech_started") ∧
    (∀ e : FunctionCall, e.type.1 = "response.function_call_arguments.done") ∧
    (∀ (kw : List (String × JValue)) (e : SessionCreated),
      SessionCreated.model_validate kw = Except.ok e →
        lookupKw kw ("raw_message") = some (JValue.obj e.raw_message)) ∧
    (∀ (kw : List (String × JValue)) (e : SessionUpdated),
      SessionUpdated.model_validate kw = Except.ok e →
        lookupKw kw ("raw_message") = some (JValue.obj e.raw_message)) ∧
    (∀ (kw : List (String × JValue)) (e : AudioDelta),
      AudioDelta.model_validate kw = Except.ok e →
        lookupKw kw ("raw_message") = some (JValue.obj e.raw_message)) ∧
    (∀ (kw : List (String × JValue)) (e : SpeechStarted),
      SpeechStarted.model_validate kw = Except.ok e →
        lookupKw kw ("raw_message") = some (JValue.obj e.raw_message)) ∧
    (∀ (kw : List (String × JValue)) (e : FunctionCall),
      FunctionCall.model_validate kw = Except.ok e →
        lookupKw kw ("raw_message") = some (JValue.obj e.raw_message)) := by
  refine ⟨fun e => e.type.2, fun e => e.type.2, fun e => e.type.2, fun e => e.type.2,
    fun e => e.type.2, ?_, ?_, ?_, ?_, ?_⟩
  · exact fun kw e h => requireDict_ok_lookup (sessionCreated_validate_raw h)
  · exact fun kw e h => requireDict_ok_lookup (sessionUpdated_validate_raw h)
  · exact fun kw e h => requireDict_ok_lookup (audioDelta_validate_raw h)
  · exact fun kw e h => requireDict_ok_lookup (speechStarted_validate_raw h)
  · exact fun kw e h => requireDict_ok_lookup (functionCall_validate_raw h)

/-- Witness for C5: concrete validated instances of all five event models
retain their raw message dict, with the validation hypotheses discharged
by computation. -/
theorem realtime_event_type_literals_witness :
    lookupKw [(("raw_message"), JValue.obj [(("a"), JValue.num 1)])] ("raw_message")
      = some (JValue.obj
          (({ raw_message := [(("a"), JValue.num 1)] } : SessionCreated)).raw_message) ∧
    lookupKw [(("raw_message"), JValue.obj [])] ("raw_message")
      = some (JValue.obj (({ raw_message := [] } : SessionUpdated)).raw_message) ∧
    lookupKw [(("raw_message"), JValue.obj []), (("delta"), JValue.str "x"),
        (("item_id"), JValue.null)] ("raw_message")
      = some (JValue.obj
          (({ raw_message := [], delta := "x", item_id := JValue.null } : AudioDelta)).raw_message) ∧
    lookupKw [(("raw_message"), JValue.obj [])] ("raw_message")
      = some (JValue.obj (({ raw_message := [] } : SpeechStarted)).raw_message) ∧
    lookupKw [(("raw_message"), JValue.obj []), (("name"), JValue.str "f"),
        (("arguments"), JValue.obj []), (("call_id"), JValue.str "c1")] ("raw_message")
      = some (JValue.obj
          (({ raw_message := [], name := "f", arguments := [], call_id := "c1" }
            : FunctionCall)).raw_message) :=
  ⟨realtime_event_type_literals.2.2.2.2.2.1 _ _ rfl,
   realtime_event_type_literals.2.2.2.2.2.2.1 _ _ rfl,
   realtime_event_type_literals.2.2.2.2.2.2.2.1 _ _ rfl,
   realtime_event_type_literals.2.2.2.2.2.2.2.2.1 _ _ rfl,
   realtime_event_type_literals.2.2.2.2.2.2.2.2.2 _ _ rfl⟩

/-- C6: when the prefixed key is absent from the underlying Redis store
(the client returns `None`), `get(key)` returns `None` rather than
raising, and does not attempt to unpickle. -/
theorem redis_get_missing_none (c : RedisCache) (key : String)
    (h : c.cache.store.lookup (RedisCache.prefixed_key c key) = none) :
    (RedisCache.get c key).1 = Except.ok none := by
  simp [RedisCache.get, RedisClient.get, h]

/-- Witness for C6: on a cache whose store is empty, `get` of key `"k"`
returns `None`. -/
theorem redis_get_missing_none_witness :
    (RedisCache.init ("s") []).cache.store.lookup
        (RedisCache.prefixed_key (RedisCache.init ("s") []) ("k")) = none ∧
    ((RedisCache.init ("s") []).get ("k")).1 = Except.ok none :=
  ⟨rfl, redis_get_missing_none (RedisCache.init ("s") []) ("k") rfl⟩

/-- C7: before any call to `IOStream.set_default`, `IOStream.get_default()`
returns the console stream: the console is the initial default
input/output stream. -/
theorem io_initial_default_console :
    IOStream.get_default IODefaultState.initial = IOStreamKind.console := rfl

/-- C8: `IOStream.set_default` maintains a LIFO stack: inside the context
`get_default()` returns the stream just set, and on exit `get_default()`
returns exactly what it returned before entry, including for nested
contexts — exiting an inner context restores the outer context's stream,
not the initial default. -/
theorem io_set_default_lifo (s : IODefaultState) (x y : IOStreamKind) :
    IOStream.get_default (IOStream.set_default_enter s x) = x ∧
    IOStream.set_default_exit (IOStream.set_default_enter s x) = s ∧
    IOStream.get_default (IOStream.set_default_exit
      (IOStream.set_default_enter (IOStream.set_default_enter s x) y)) = x ∧
    IOStream.get_default (IOStream.set_default_exit (IOStream.set_default_enter s x))
      = IOStream.get_default s := by
  cases s with
  | mk stack => exact ⟨rfl, rfl, rfl, rfl⟩

/-- C9: using the cache as a context manager yields the cache itself, and
exiting the with-block calls `close()` on the underlying Redis client
connection (leaving seed and store untouched). -/
theorem redis_context_manager_spec (c : RedisCache) :
    RedisCache.enter c = c ∧
    (RedisCache.withCM c (fun x => (x, x))).1 = c ∧
    (RedisCache.exitCM c).seed = c.seed ∧
    (RedisCache.exitCM c).cache.store = c.cache.store ∧
    (RedisCache.exitCM c).cache.calls = c.cache.calls ++ [RedisCall.close] ∧
    (RedisCache.withCM c (fun x => (x, x))).2.cache.calls
      = c.cache.calls ++ [RedisCall.close] :=
  ⟨rfl, rfl, rfl, rfl, rfl, rfl⟩

/-- C10: constructing a typed realtime event from a raw message violating
its schema fails validation: an `AudioDelta` without a string `delta`, a
`FunctionCall` without `name`, `arguments` and `call_id`, and a subclass
given a `type` other than its declared literal all produce validation
errors instead of events. -/
theorem realtime_event_validation_errors :
    AudioDelta.model_validate [(("raw_message"), JValue.obj []),
        (("delta"), JValue.num 42), (("item_id"), JValue.null)]
      = Except.error ("delta: input should be a valid string") ∧
    FunctionCall.model_validate [(("raw_message"), JValue.obj [])]
      = Except.error ("name: field required") ∧
    SessionCreated.model_validate [(("raw_message"), JValue.obj []),
        (("type"), JValue.str "session.updated")]
      = Except.error ("type: unexpected literal value") :=
  ⟨rfl, rfl, rfl⟩

end Ag2
